import Mathlib

/-!
Shallow embedding of the `dq-function` repository (src/models.py and
src/function_app.py): the pydantic data model for a data contract, the
validation semantics used by the `generate_contract` handler, the
`model_dump`/`yaml.safe_dump` serialization order, and the
`suggest_metadata` handler's control flow.

Conventions of the embedding:
* Parsed JSON values are modelled by `JValue`; Python numbers (int and
  float alike) are carried as `Rat` — no arithmetic is performed on them,
  they are only stored and compared for presence.
* A pydantic validation outcome is `Vres α = Except (List PError) α`;
  errors carry the field path (`loc`) and a message, and are aggregated
  across sibling fields exactly as pydantic does (applicative `vap`).
* Whitespace stripping is modelled over the code points: `ustrip` is
  pydantic-core's `strip_whitespace=True` (Unicode `White_Space` trim),
  `pstrip` is Python's `str.strip()` (the same set plus U+001C-U+001F).
* pydantic's lax-mode coercions that the repository never relies on
  (numeric strings to numbers, "true"/1 to bool) are outside the model:
  a bool field accepts JSON booleans, a numeric field JSON numbers.
-/

/-- A parsed JSON value (the result of `req.get_json()` / the input to
`model_validate`). Objects are association lists; parsed Python dicts have
distinct keys. -/
inductive JValue where
  | null : JValue
  | bool (b : Bool) : JValue
  | num (q : Rat) : JValue
  | str (s : String) : JValue
  | arr (items : List JValue) : JValue
  | obj (fields : List (String × JValue)) : JValue

abbrev JObj := List (String × JValue)

/-- `dict.get(k)`: first binding for `k` (parsed dicts have unique keys). -/
def JObj.get? (o : JObj) (k : String) : Option JValue :=
  (o.find? (fun p => p.1 = k)).map (·.2)

/-- One component of a pydantic error `loc`: a mapping key or a list index. -/
inductive PathItem where
  | key (s : String) : PathItem
  | idx (n : Nat) : PathItem
deriving DecidableEq, Repr

/-- One entry of a pydantic `ValidationError`: field path plus message. -/
structure PError where
  loc : List PathItem
  msg : String
deriving DecidableEq, Repr

/-- Validation outcome: a typed value, or the aggregated error list. -/
abbrev Vres (α : Type) := Except (List PError) α

/-- The Unicode `White_Space` code points: U+0009–U+000D, U+0020, U+0085,
U+00A0, U+1680, U+2000–U+200A, U+2028, U+2029, U+202F, U+205F, U+3000.
This is the set pydantic-core's `strip_whitespace=True` trims (Rust
`str::trim`, i.e. `char::is_whitespace`). -/
def isUniWs (c : Char) : Bool :=
  (0x09 ≤ c.toNat && c.toNat ≤ 0x0D) || c.toNat = 0x20 ||
  c.toNat = 0x85 || c.toNat = 0xA0 || c.toNat = 0x1680 ||
  (0x2000 ≤ c.toNat && c.toNat ≤ 0x200A) ||
  c.toNat = 0x2028 || c.toNat = 0x2029 || c.toNat = 0x202F ||
  c.toNat = 0x205F || c.toNat = 0x3000

/-- The characters Python's `str.strip()` removes (`str.isspace()`): the
Unicode `White_Space` set plus the separators U+001C–U+001F. -/
def isPyWs (c : Char) : Bool :=
  isUniWs c || (0x1C ≤ c.toNat && c.toNat ≤ 0x1F)

/-- Strip leading and trailing `isPyWs` characters from a code-point
list. -/
def stripList (l : List Char) : List Char :=
  ((l.dropWhile isPyWs).reverse.dropWhile isPyWs).reverse

/-- Python `s.strip()` (the handler's normalization of `lang` and the
non-blank check on `csv_text`). -/
def pstrip (s : String) : String := ⟨stripList s.data⟩

/-- Strip leading and trailing `isUniWs` characters from a code-point
list. -/
def uStripList (l : List Char) : List Char :=
  ((l.dropWhile isUniWs).reverse.dropWhile isUniWs).reverse

/-- pydantic-core's `strip_whitespace=True` normalization (Unicode
`White_Space` trim), applied to `StrReq` and `StrAny` fields. -/
def ustrip (s : String) : String := ⟨uStripList s.data⟩

/-- ASCII lowercase of one character (Python `str.lower()` on the ASCII
range, which is all the repository compares against). -/
def lowerChar (c : Char) : Char :=
  if c.toNat ≥ 65 ∧ c.toNat ≤ 90 then Char.ofNat (c.toNat + 32) else c

/-- Python `s.lower()` (ASCII range). -/
def pyLower (s : String) : String := ⟨s.data.map lowerChar⟩

/-- Applicative combination of validation outcomes: both errors are kept,
left-to-right, exactly as pydantic aggregates sibling-field errors. -/
def vap : Vres (α → β) → Vres α → Vres β
  | .ok f, .ok a => .ok (f a)
  | .error e, .ok _ => .error e
  | .ok _, .error e => .error e
  | .error e, .error f => .error (e ++ f)

def vmap (f : α → β) : Vres α → Vres β
  | .ok a => .ok (f a)
  | .error e => .error e

/-- Validate each element of a JSON array, indices starting at `i`,
aggregating the errors of every element. -/
def vlist (f : Nat → JValue → Vres α) : Nat → List JValue → Vres (List α)
  | _, [] => .ok []
  | i, x :: xs => vap (vmap List.cons (f i x)) (vlist f (i + 1) xs)

/-- A required field of a pydantic model: missing key is `Field required`. -/
def reqField (loc : List PathItem) (o : JObj) (k : String)
    (f : List PathItem → JValue → Vres α) : Vres α :=
  match o.get? k with
  | none => .error [⟨loc ++ [.key k], "Field required"⟩]
  | some v => f (loc ++ [.key k]) v

/-- An optional field with default `d`: the default is substituted only
when the key is absent; a present value (explicit `null` included) goes to
the field validator. -/
def optField (loc : List PathItem) (o : JObj) (k : String) (d : α)
    (f : List PathItem → JValue → Vres α) : Vres α :=
  match o.get? k with
  | none => .ok d
  | some v => f (loc ++ [.key k]) v

/-- `StrReq` (`strip_whitespace=True, min_length=1`): strings only, the
stored value is stripped, and the stripped value must be non-empty. -/
def validateStrReq (loc : List PathItem) : JValue → Vres String
  | .str s =>
    if ustrip s = "" then
      .error [⟨loc, "String should have at least 1 character"⟩]
    else .ok (ustrip s)
  | _ => .error [⟨loc, "Input should be a valid string"⟩]

/-- `StrAny` (`strip_whitespace=True`): strings only, stored stripped. -/
def validateStrAny (loc : List PathItem) : JValue → Vres String
  | .str s => .ok (ustrip s)
  | _ => .error [⟨loc, "Input should be a valid string"⟩]

/-- `Optional[X]` wrapping of a field validator: JSON `null` is a valid
value (`None`), anything else must satisfy the inner validator. -/
def validateOpt (f : List PathItem → JValue → Vres α)
    (loc : List PathItem) : JValue → Vres (Option α)
  | .null => .ok none
  | v => vmap some (f loc v)

/-- A `float` field: JSON numbers (Python int or float) are accepted. -/
def validateFloat (loc : List PathItem) : JValue → Vres Rat
  | .num q => .ok q
  | _ => .error [⟨loc, "Input should be a valid number"⟩]

/-- An `int` field: JSON integers (numbers without fractional part). -/
def validateInt (loc : List PathItem) : JValue → Vres Int
  | .num q => if q.den = 1 then .ok q.num
      else .error [⟨loc, "Input should be a valid integer"⟩]
  | _ => .error [⟨loc, "Input should be a valid integer"⟩]

/-- A `bool` field. -/
def validateBool (loc : List PathItem) : JValue → Vres Bool
  | .bool b => .ok b
  | _ => .error [⟨loc, "Input should be a valid boolean"⟩]

/-- A `Literal[lit]` tag field: the value must be exactly the string. -/
def validateLit (lit : String) (loc : List PathItem) : JValue → Vres String
  | .str s => if s = lit then .ok s
      else .error [⟨loc, "Input should be " ++ lit⟩]
  | _ => .error [⟨loc, "Input should be " ++ lit⟩]

/-- A `Literal` over several allowed strings (no stripping: plain `str`). -/
def validateLits (lits : List String) (loc : List PathItem) :
    JValue → Vres String
  | .str s => if s ∈ lits then .ok s
      else .error [⟨loc, "Input should be one of the allowed literals"⟩]
  | _ => .error [⟨loc, "Input should be one of the allowed literals"⟩]

/-- `Union[str, int, float, bool]` (pydantic smart union over primitives;
`condition_value`'s extra `Literal["Any"]` adds nothing beyond `str`). -/
inductive PrimVal where
  | s (v : String) : PrimVal
  | n (v : Rat) : PrimVal
  | b (v : Bool) : PrimVal

def validatePrim (loc : List PathItem) : JValue → Vres PrimVal
  | .str v => .ok (.s v)
  | .num v => .ok (.n v)
  | .bool v => .ok (.b v)
  | _ => .error [⟨loc, "Input should be a valid string, integer, number or boolean"⟩]

-- -------------------------
-- Secciones de entrada (models.py)
-- -------------------------

structure TablaUC where
  path : String

structure SourceItem where
  tipo_fuente : String
  nombre_tecnico_origen : String
  unity_catalog_fuente : String
  tabla_origen : String

structure SchemaCol where
  name : String
  type : String
  nullable : Bool
  is_required : Bool
  description : Option String

structure Constraints where
  primary_key : List String
  unique : Option (List String)
  required_fields : Option (List String)

-- -------------------------
-- Validations (tipadas)
-- -------------------------

structure VNullCheck where
  columns : List String
  thresholds : Option (List Rat)

structure VDuplicateCheck where
  columns : List String

structure VRangeCheck where
  column : String
  min_value : Option Rat
  max_value : Option Rat

structure VDateRangeCheck where
  column : String
  start_date : Option String
  end_date : Option String

structure VCompleteness where
  expected_min_records : Int

structure VConsistencyCross where
  df_reference : String
  foreign_key : String
  reference_key : String

structure VConsistencyInclude where
  column : String
  expected_value : PrimVal
  threshold : Option Rat

structure VStatsOutlier where
  column : String
  method : Option String
  zscore_threshold : Option Rat

structure VRowsCountChange where
  previous_count : Int
  max_percent_change : Option Rat

structure VPatternMatch where
  column : String
  pattern : String
  expected_match_rate : Option Rat

structure VMonotonicity where
  order_by : String
  direction : String

structure VDistValueCount where
  column : String
  min_distinct : Option Int
  max_distinct : Option Int

structure VColDependency where
  column : String
  condition_column : String
  condition_value : PrimVal

structure VColCorrelation where
  column_1 : String
  column_2 : String
  max_correlation : Rat

structure VFreshness where
  timestamp_column : String
  max_age_hours : Int

/-- The closed tagged union `ValidationItem` of the 15 variants. -/
inductive ValidationItem where
  | nullCheck (v : VNullCheck)
  | duplicateCheck (v : VDuplicateCheck)
  | rangeCheck (v : VRangeCheck)
  | dateRangeCheck (v : VDateRangeCheck)
  | completeness (v : VCompleteness)
  | consistencyCross (v : VConsistencyCross)
  | consistencyInclude (v : VConsistencyInclude)
  | statsOutlier (v : VStatsOutlier)
  | rowsCountChange (v : VRowsCountChange)
  | patternMatch (v : VPatternMatch)
  | monotonicity (v : VMonotonicity)
  | distValueCount (v : VDistValueCount)
  | colDependency (v : VColDependency)
  | colCorrelation (v : VColCorrelation)
  | freshness (v : VFreshness)

structure Ownership where
  owner_analitico : String
  owner_funcional : Option String
  steward_tecnico : Option String
  notification_channel : Option String
  notification_group : Option String

structure DataContractBody where
  tabla_uc : TablaUC
  source : List SourceItem
  schema : List SchemaCol
  constraints : Constraints
  validations : List ValidationItem
  ownership : Ownership
  description : Option String

structure DataContractRequest where
  data_contract : DataContractBody

-- -------------------------
-- Validators for the records (pydantic `model_validate` semantics)
-- -------------------------

/-- Sequence two outcomes, keeping the second value, aggregating errors
(used for the `type` literal tag, declared first in every variant). -/
def vseq (t : Vres β) (r : Vres α) : Vres α :=
  vap (vmap (fun _ a => a) t) r

/-- A `List[X]` field. -/
def validateListOf (f : List PathItem → JValue → Vres α)
    (loc : List PathItem) : JValue → Vres (List α)
  | .arr xs => vlist (fun i v => f (loc ++ [.idx i]) v) 0 xs
  | _ => .error [⟨loc, "Input should be a valid list"⟩]

def dictErr (loc : List PathItem) : List PError :=
  [⟨loc, "Input should be a valid dictionary"⟩]

def validateTablaUC (loc : List PathItem) : JValue → Vres TablaUC
  | .obj o => vmap TablaUC.mk (reqField loc o "path" validateStrReq)
  | _ => .error (dictErr loc)

def tipoFuenteLits : List String := ["DL", "RDBMS", "API", "FILE", "STREAM"]

def validateSourceItem (loc : List PathItem) : JValue → Vres SourceItem
  | .obj o =>
    vap (vap (vap (vmap SourceItem.mk
      (reqField loc o "tipo_fuente" (validateLits tipoFuenteLits)))
      (reqField loc o "nombre_tecnico_origen" validateStrReq))
      (reqField loc o "unity_catalog_fuente" validateStrReq))
      (reqField loc o "tabla_origen" validateStrReq)
  | _ => .error (dictErr loc)

def validateSchemaCol (loc : List PathItem) : JValue → Vres SchemaCol
  | .obj o =>
    vap (vap (vap (vap (vmap SchemaCol.mk
      (reqField loc o "name" validateStrReq))
      (reqField loc o "type" validateStrReq))
      (reqField loc o "nullable" validateBool))
      (reqField loc o "is_required" validateBool))
      (optField loc o "description" none (validateOpt validateStrAny))
  | _ => .error (dictErr loc)

def validateConstraints (loc : List PathItem) : JValue → Vres Constraints
  | .obj o =>
    vap (vap (vmap Constraints.mk
      (reqField loc o "primary_key" (validateListOf validateStrReq)))
      (optField loc o "unique" none
        (validateOpt (validateListOf validateStrReq))))
      (optField loc o "required_fields" none
        (validateOpt (validateListOf validateStrReq)))
  | _ => .error (dictErr loc)

-- The 15 variant validators. Each model declares its `type` literal tag
-- first, then its payload fields; errors aggregate in declaration order.

def validateVNullCheck (loc : List PathItem) : JValue → Vres VNullCheck
  | .obj o =>
    vseq (reqField loc o "type" (validateLit "null_check"))
      (vap (vmap VNullCheck.mk
        (reqField loc o "columns" (validateListOf validateStrReq)))
        (optField loc o "thresholds" none
          (validateOpt (validateListOf validateFloat))))
  | _ => .error (dictErr loc)

def validateVDuplicateCheck (loc : List PathItem) : JValue → Vres VDuplicateCheck
  | .obj o =>
    vseq (reqField loc o "type" (validateLit "duplicate_check"))
      (vmap VDuplicateCheck.mk
        (reqField loc o "columns" (validateListOf validateStrReq)))
  | _ => .error (dictErr loc)

def validateVRangeCheck (loc : List PathItem) : JValue → Vres VRangeCheck
  | .obj o =>
    vseq (reqField loc o "type" (validateLit "range_check"))
      (vap (vap (vmap VRangeCheck.mk
        (reqField loc o "column" validateStrReq))
        (optField loc o "min_value" none (validateOpt validateFloat)))
        (optField loc o "max_value" none (validateOpt validateFloat)))
  | _ => .error (dictErr loc)

def validateVDateRangeCheck (loc : List PathItem) : JValue → Vres VDateRangeCheck
  | .obj o =>
    vseq (reqField loc o "type" (validateLit "date_range_check"))
      (vap (vap (vmap VDateRangeCheck.mk
        (reqField loc o "column" validateStrReq))
        (optField loc o "start_date" none (validateOpt validateStrAny)))
        (optField loc o "end_date" none (validateOpt validateStrAny)))
  | _ => .error (dictErr loc)

def validateVCompleteness (loc : List PathItem) : JValue → Vres VCompleteness
  | .obj o =>
    vseq (reqField loc o "type" (validateLit "completeness"))
      (vmap VCompleteness.mk
        (reqField loc o "expected_min_records" validateInt))
  | _ => .error (dictErr loc)

def validateVConsistencyCross (loc : List PathItem) :
    JValue → Vres VConsistencyCross
  | .obj o =>
    vseq (reqField loc o "type" (validateLit "consistency_cross"))
      (vap (vap (vmap VConsistencyCross.mk
        (reqField loc o "df_reference" validateStrReq))
        (reqField loc o "foreign_key" validateStrReq))
        (reqField loc o "reference_key" validateStrReq))
  | _ => .error (dictErr loc)

def validateVConsistencyInclude (loc : List PathItem) :
    JValue → Vres VConsistencyInclude
  | .obj o =>
    vseq (reqField loc o "type" (validateLit "consistency_Include"))
      (vap (vap (vmap VConsistencyInclude.mk
        (reqField loc o "column" validateStrReq))
        (reqField loc o "expected_value" validatePrim))
        (optField loc o "threshold" (some 0) (validateOpt validateFloat)))
  | _ => .error (dictErr loc)

def validateVStatsOutlier (loc : List PathItem) : JValue → Vres VStatsOutlier
  | .obj o =>
    vseq (reqField loc o "type" (validateLit "stats_outlier"))
      (vap (vap (vmap VStatsOutlier.mk
        (reqField loc o "column" validateStrReq))
        (optField loc o "method" (some "zscore")
          (validateOpt (validateLits ["zscore", "iqr"]))))
        (optField loc o "zscore_threshold" (some 3) (validateOpt validateFloat)))
  | _ => .error (dictErr loc)

def validateVRowsCountChange (loc : List PathItem) :
    JValue → Vres VRowsCountChange
  | .obj o =>
    vseq (reqField loc o "type" (validateLit "rows_count_change"))
      (vap (vmap VRowsCountChange.mk
        (reqField loc o "previous_count" validateInt))
        (optField loc o "max_percent_change" (some (1 / 10))
          (validateOpt validateFloat)))
  | _ => .error (dictErr loc)

def validateVPatternMatch (loc : List PathItem) : JValue → Vres VPatternMatch
  | .obj o =>
    vseq (reqField loc o "type" (validateLit "pattern_match"))
      (vap (vap (vmap VPatternMatch.mk
        (reqField loc o "column" validateStrReq))
        (reqField loc o "pattern" validateStrReq))
        (optField loc o "expected_match_rate" (some 1) (validateOpt validateFloat)))
  | _ => .error (dictErr loc)

def validateVMonotonicity (loc : List PathItem) : JValue → Vres VMonotonicity
  | .obj o =>
    vseq (reqField loc o "type" (validateLit "monotonicity"))
      (vap (vmap VMonotonicity.mk
        (reqField loc o "order_by" validateStrReq))
        (reqField loc o "direction"
          (validateLits ["increasing", "decreasing"])))
  | _ => .error (dictErr loc)

def validateVDistValueCount (loc : List PathItem) :
    JValue → Vres VDistValueCount
  | .obj o =>
    vseq (reqField loc o "type" (validateLit "dist_value_count"))
      (vap (vap (vmap VDistValueCount.mk
        (reqField loc o "column" validateStrReq))
        (optField loc o "min_distinct" none (validateOpt validateInt)))
        (optField loc o "max_distinct" none (validateOpt validateInt)))
  | _ => .error (dictErr loc)

def validateVColDependency (loc : List PathItem) :
    JValue → Vres VColDependency
  | .obj o =>
    vseq (reqField loc o "type" (validateLit "col_dependency"))
      (vap (vap (vmap VColDependency.mk
        (reqField loc o "column" validateStrReq))
        (reqField loc o "condition_column" validateStrReq))
        (reqField loc o "condition_value" validatePrim))
  | _ => .error (dictErr loc)

def validateVColCorrelation (loc : List PathItem) :
    JValue → Vres VColCorrelation
  | .obj o =>
    vseq (reqField loc o "type" (validateLit "col_correlation"))
      (vap (vap (vmap VColCorrelation.mk
        (reqField loc o "column_1" validateStrReq))
        (reqField loc o "column_2" validateStrReq))
        (reqField loc o "max_correlation" validateFloat))
  | _ => .error (dictErr loc)

def validateVFreshness (loc : List PathItem) : JValue → Vres VFreshness
  | .obj o =>
    vseq (reqField loc o "type" (validateLit "freshness"))
      (vap (vmap VFreshness.mk
        (reqField loc o "timestamp_column" validateStrReq))
        (reqField loc o "max_age_hours" validateInt))
  | _ => .error (dictErr loc)

-- -------------------------
-- The non-discriminated union dispatch for ValidationItem
-- -------------------------

/-- pydantic's left-to-right union attempt: the first member that
validates wins; when all fail, the errors of every member are reported
(each already prefixed with the member's class name). -/
def firstOk (acc : List PError) : List (Vres α) → Vres α
  | [] => .error acc
  | .ok a :: _ => .ok a
  | .error e :: rest => firstOk (acc ++ e) rest

/-- Validate one element of `validations` against the union
`ValidationItem`, trying the 15 members in declaration order. -/
def validateValidationItem (loc : List PathItem) (v : JValue) :
    Vres ValidationItem :=
  firstOk []
    [ vmap ValidationItem.nullCheck
        (validateVNullCheck (loc ++ [.key "VNullCheck"]) v),
      vmap ValidationItem.duplicateCheck
        (validateVDuplicateCheck (loc ++ [.key "VDuplicateCheck"]) v),
      vmap ValidationItem.rangeCheck
        (validateVRangeCheck (loc ++ [.key "VRangeCheck"]) v),
      vmap ValidationItem.dateRangeCheck
        (validateVDateRangeCheck (loc ++ [.key "VDateRangeCheck"]) v),
      vmap ValidationItem.completeness
        (validateVCompleteness (loc ++ [.key "VCompleteness"]) v),
      vmap ValidationItem.consistencyCross
        (validateVConsistencyCross (loc ++ [.key "VConsistencyCross"]) v),
      vmap ValidationItem.consistencyInclude
        (validateVConsistencyInclude (loc ++ [.key "VConsistencyInclude"]) v),
      vmap ValidationItem.statsOutlier
        (validateVStatsOutlier (loc ++ [.key "VStatsOutlier"]) v),
      vmap ValidationItem.rowsCountChange
        (validateVRowsCountChange (loc ++ [.key "VRowsCountChange"]) v),
      vmap ValidationItem.patternMatch
        (validateVPatternMatch (loc ++ [.key "VPatternMatch"]) v),
      vmap ValidationItem.monotonicity
        (validateVMonotonicity (loc ++ [.key "VMonotonicity"]) v),
      vmap ValidationItem.distValueCount
        (validateVDistValueCount (loc ++ [.key "VDistValueCount"]) v),
      vmap ValidationItem.colDependency
        (validateVColDependency (loc ++ [.key "VColDependency"]) v),
      vmap ValidationItem.colCorrelation
        (validateVColCorrelation (loc ++ [.key "VColCorrelation"]) v),
      vmap ValidationItem.freshness
        (validateVFreshness (loc ++ [.key "VFreshness"]) v) ]

def validateOwnership (loc : List PathItem) : JValue → Vres Ownership
  | .obj o =>
    vap (vap (vap (vap (vmap Ownership.mk
      (reqField loc o "owner_analitico" validateStrReq))
      (optField loc o "owner_funcional" none (validateOpt validateStrAny)))
      (optField loc o "steward_tecnico" none (validateOpt validateStrAny)))
      (optField loc o "notification_channel" none (validateOpt validateStrAny)))
      (optField loc o "notification_group" none (validateOpt validateStrAny))
  | _ => .error (dictErr loc)

/-- The body's seven fields, validated independently and aggregated in
declaration order. -/
def validateBodyObj (loc : List PathItem) (o : JObj) : Vres DataContractBody :=
  vap (vap (vap (vap (vap (vap (vmap DataContractBody.mk
    (reqField loc o "tabla_uc" validateTablaUC))
    (reqField loc o "source" (validateListOf validateSourceItem)))
    (reqField loc o "schema" (validateListOf validateSchemaCol)))
    (reqField loc o "constraints" validateConstraints))
    (reqField loc o "validations" (validateListOf validateValidationItem)))
    (reqField loc o "ownership" validateOwnership))
    (optField loc o "description" none (validateOpt validateStrAny))

def validateDataContractBody (loc : List PathItem) : JValue → Vres DataContractBody
  | .obj o => validateBodyObj loc o
  | _ => .error (dictErr loc)

/-- `DataContractRequest.model_validate(payload)`. -/
def validateRequest : JValue → Vres DataContractRequest
  | .obj o => vmap DataContractRequest.mk
      (reqField [] o "data_contract" validateDataContractBody)
  | _ => .error (dictErr [])

-- -------------------------
-- model_dump (mode="python"): mappings in field-declaration order.
-- `yaml.safe_dump(..., sort_keys=False)` then emits every mapping's keys
-- in exactly this association order (block style), so the key order of
-- the serialized document is the key order of these trees.
-- -------------------------

def PrimVal.dump : PrimVal → JValue
  | .s v => .str v
  | .n v => .num v
  | .b v => .bool v

def dumpOptStr : Option String → JValue
  | none => .null
  | some s => .str s

def dumpOptNum : Option Rat → JValue
  | none => .null
  | some q => .num q

def dumpOptInt : Option Int → JValue
  | none => .null
  | some i => .num (i : Rat)

def dumpOptStrList : Option (List String) → JValue
  | none => .null
  | some l => .arr (l.map .str)

def dumpOptNumList : Option (List Rat) → JValue
  | none => .null
  | some l => .arr (l.map .num)

def TablaUC.dump (t : TablaUC) : JValue :=
  .obj [("path", .str t.path)]

def SourceItem.dump (s : SourceItem) : JValue :=
  .obj [("tipo_fuente", .str s.tipo_fuente),
        ("nombre_tecnico_origen", .str s.nombre_tecnico_origen),
        ("unity_catalog_fuente", .str s.unity_catalog_fuente),
        ("tabla_origen", .str s.tabla_origen)]

def SchemaCol.dump (c : SchemaCol) : JValue :=
  .obj [("name", .str c.name),
        ("type", .str c.type),
        ("nullable", .bool c.nullable),
        ("is_required", .bool c.is_required),
        ("description", dumpOptStr c.description)]

def Constraints.dump (c : Constraints) : JValue :=
  .obj [("primary_key", .arr (c.primary_key.map .str)),
        ("unique", dumpOptStrList c.unique),
        ("required_fields", dumpOptStrList c.required_fields)]

def ValidationItem.dump : ValidationItem → JValue
  | .nullCheck v => .obj [("type", .str "null_check"),
      ("columns", .arr (v.columns.map .str)),
      ("thresholds", dumpOptNumList v.thresholds)]
  | .duplicateCheck v => .obj [("type", .str "duplicate_check"),
      ("columns", .arr (v.columns.map .str))]
  | .rangeCheck v => .obj [("type", .str "range_check"),
      ("column", .str v.column),
      ("min_value", dumpOptNum v.min_value),
      ("max_value", dumpOptNum v.max_value)]
  | .dateRangeCheck v => .obj [("type", .str "date_range_check"),
      ("column", .str v.column),
      ("start_date", dumpOptStr v.start_date),
      ("end_date", dumpOptStr v.end_date)]
  | .completeness v => .obj [("type", .str "completeness"),
      ("expected_min_records", .num (v.expected_min_records : Rat))]
  | .consistencyCross v => .obj [("type", .str "consistency_cross"),
      ("df_reference", .str v.df_reference),
      ("foreign_key", .str v.foreign_key),
      ("reference_key", .str v.reference_key)]
  | .consistencyInclude v => .obj [("type", .str "consistency_Include"),
      ("column", .str v.column),
      ("expected_value", v.expected_value.dump),
      ("threshold", dumpOptNum v.threshold)]
  | .statsOutlier v => .obj [("type", .str "stats_outlier"),
      ("column", .str v.column),
      ("method", dumpOptStr v.method),
      ("zscore_threshold", dumpOptNum v.zscore_threshold)]
  | .rowsCountChange v => .obj [("type", .str "rows_count_change"),
      ("previous_count", .num (v.previous_count : Rat)),
      ("max_percent_change", dumpOptNum v.max_percent_change)]
  | .patternMatch v => .obj [("type", .str "pattern_match"),
      ("column", .str v.column),
      ("pattern", .str v.pattern),
      ("expected_match_rate", dumpOptNum v.expected_match_rate)]
  | .monotonicity v => .obj [("type", .str "monotonicity"),
      ("order_by", .str v.order_by),
      ("direction", .str v.direction)]
  | .distValueCount v => .obj [("type", .str "dist_value_count"),
      ("column", .str v.column),
      ("min_distinct", dumpOptInt v.min_distinct),
      ("max_distinct", dumpOptInt v.max_distinct)]
  | .colDependency v => .obj [("type", .str "col_dependency"),
      ("column", .str v.column),
      ("condition_column", .str v.condition_column),
      ("condition_value", v.condition_value.dump)]
  | .colCorrelation v => .obj [("type", .str "col_correlation"),
      ("column_1", .str v.column_1),
      ("column_2", .str v.column_2),
      ("max_correlation", .num v.max_correlation)]
  | .freshness v => .obj [("type", .str "freshness"),
      ("timestamp_column", .str v.timestamp_column),
      ("max_age_hours", .num (v.max_age_hours : Rat))]

def Ownership.dump (w : Ownership) : JValue :=
  .obj [("owner_analitico", .str w.owner_analitico),
        ("owner_funcional", dumpOptStr w.owner_funcional),
        ("steward_tecnico", dumpOptStr w.steward_tecnico),
        ("notification_channel", dumpOptStr w.notification_channel),
        ("notification_group", dumpOptStr w.notification_group)]

def DataContractBody.dump (b : DataContractBody) : JValue :=
  .obj [("tabla_uc", b.tabla_uc.dump),
        ("source", .arr (b.source.map SourceItem.dump)),
        ("schema", .arr (b.schema.map SchemaCol.dump)),
        ("constraints", b.constraints.dump),
        ("validations", .arr (b.validations.map ValidationItem.dump)),
        ("ownership", b.ownership.dump),
        ("description", dumpOptStr b.description)]

def DataContractRequest.dump (r : DataContractRequest) : JValue :=
  .obj [("data_contract", r.data_contract.dump)]

/-- The keys of a JSON mapping, in emission order. -/
def mappingKeys : JValue → List String
  | .obj o => o.map (·.1)
  | _ => []

-- -------------------------
-- generate_contract handler (function_app.py), POST path
-- -------------------------

/-- Outcome of the `generate_contract` handler: HTTP status, the
`ValidationError` entries on 422, and on 200 the ordered `model_dump`
tree handed to `yaml.safe_dump(sort_keys=False)`. -/
structure GCOutcome where
  status : Nat
  errors : List PError
  doc : Option JValue

/-- `generate_contract` on a POST request: `parsed = none` models
`req.get_json()` raising `ValueError` (invalid or empty JSON body). -/
def generate_contract (parsed : Option JValue) : GCOutcome :=
  match parsed with
  | none => ⟨400, [], none⟩
  | some payload =>
    match validateRequest payload with
    | .error errs => ⟨422, errs, none⟩
    | .ok m => ⟨200, [], some m.dump⟩

-- -------------------------
-- suggest_metadata handler (function_app.py), POST path
-- -------------------------

/-- `body or {}`: a falsy parsed body (JSON `null`, `false`, `0`, `""`,
`[]`) is replaced by an empty dict; a dict is used as is; a truthy
non-dict body makes the subsequent `.get` raise (modelled as `none`). -/
def bodyDict : JValue → Option JObj
  | .null => some []
  | .obj o => some o
  | .bool b => if b then none else some []
  | .num q => if q = 0 then some [] else none
  | .str s => if s = "" then some [] else none
  | .arr l => if l.isEmpty then some [] else none

/-- `((body or {}).get("lang", "en") or "en").lower().strip()`:
absent, `null`, `""` and every other falsy value resolve to `"en"`;
a string is lowercased then stripped; a truthy non-string value makes
`.lower()` raise (modelled as `none`). -/
def resolveLang : Option JValue → Option String
  | none => some "en"
  | some .null => some "en"
  | some (.str s) => some (pstrip (pyLower (if s = "" then "en" else s)))
  | some (.bool b) => if b then none else some "en"
  | some (.num q) => if q = 0 then some "en" else none
  | some (.arr l) => if l.isEmpty then some "en" else none
  | some (.obj o) => if o.isEmpty then some "en" else none

/-- Python dict item assignment `data["lang"] = v`: replace in place if
the key exists, else append at the end. -/
def setKey (o : JObj) (k : String) (v : JValue) : JObj :=
  if o.any (fun p => p.1 = k) then
    o.map (fun p => if p.1 = k then (k, v) else p)
  else o ++ [(k, v)]

/-- `if isinstance(data, dict): data["lang"] = lang` — tag a dict reply
with the resolved language selector; leave any other reply unchanged. -/
def tagLang (lang : String) : JValue → JValue
  | .obj od => .obj (setKey od "lang" (.str lang))
  | other => other

/-- UTF-8 width of one code point. -/
def utf8Len (c : Char) : Nat :=
  if c.toNat < 0x80 then 1
  else if c.toNat < 0x800 then 2
  else if c.toNat < 0x10000 then 3
  else 4

/-- Byte length of a string's UTF-8 encoding. -/
def byteLen (s : String) : Nat := (s.data.map utf8Len).sum

/-- The arguments the handler feeds into the fixed prompt template and
the downstream `generate_content` call: the (possibly truncated) CSV
sample, the resolved language selector, the language name injected into
the instructions, and the table-name hint echoed in the schema example. -/
structure GenCall where
  csv_sample : String
  lang : String
  lang_name : String
  table_name : JValue

/-- Outcome of `suggest_metadata`: HTTP status, the downstream call made
(if any), and the JSON response body on 200. -/
structure SMOutcome where
  status : Nat
  call : Option GenCall
  body : Option JValue

/-- `suggest_metadata` on a POST request.
`apiKey` is `os.getenv("GEMINI_API_KEY")` (`none` = unset; the empty
string is falsy and also rejected); `parsed = none` models `req.get_json()`
raising `ValueError`; `gen` is the external `generate_content` call fused
with `json.loads(resp.text)` (`.error` = any exception in that `try`).
The result is `none` where the Python handler would raise an uncaught
exception (truthy non-dict body, truthy non-string `lang`, non-string
`csv_text`). -/
def suggest_metadata (apiKey : Option String) (parsed : Option JValue)
    (gen : GenCall → Except String JValue) : Option SMOutcome :=
  match apiKey with
  | none => some ⟨500, none, none⟩
  | some k =>
    if k = "" then some ⟨500, none, none⟩
    else
      match parsed with
      | none => some ⟨400, none, none⟩
      | some bv =>
        match bodyDict bv with
        | none => none
        | some o =>
          let csvVal := (JObj.get? o "csv_text").getD (.str "")
          let tableVal := (JObj.get? o "table_name").getD (.str "unknown_table")
          match resolveLang (JObj.get? o "lang") with
          | none => none
          | some lang =>
            if lang ≠ "en" ∧ lang ≠ "es" then some ⟨400, none, none⟩
            else
              match csvVal with
              | .str csv =>
                if pstrip csv = "" then some ⟨400, none, none⟩
                else
                  let csv_short := csv.take (64 * 1024)
                  let langName := if lang = "en" then "English" else "Spanish"
                  let call : GenCall := ⟨csv_short, lang, langName, tableVal⟩
                  match gen call with
                  | .error _ => some ⟨500, some call, none⟩
                  | .ok data => some ⟨200, some call, some (tagLang lang data)⟩
              | _ => none

-- -------------------------
-- Concrete request builders (the end-to-end example of the spec, §8,
-- parameterized in the parts the individual properties vary).
-- -------------------------

/-- The §8 example body, with the `tabla_uc`, `validations` and
`ownership` sections left as parameters. -/
def baseDoc (tabla : JValue) (vals : List JValue) (owner : JValue) : JValue :=
  .obj [("data_contract", .obj [
    ("tabla_uc", tabla),
    ("source", .arr [.obj [
      ("tipo_fuente", .str "DL"),
      ("nombre_tecnico_origen", .str "x"),
      ("unity_catalog_fuente", .str "y"),
      ("tabla_origen", .str "z")]]),
    ("schema", .arr [.obj [
      ("name", .str "id"),
      ("type", .str "string"),
      ("nullable", .bool false),
      ("is_required", .bool true)]]),
    ("constraints", .obj [("primary_key", .arr [.str "id"])]),
    ("validations", .arr vals),
    ("ownership", owner)])]

def goodTabla : JValue := .obj [("path", .str "cat.schema.table")]

def goodOwner : JValue := .obj [("owner_analitico", .str "team-x")]

def nullCheckItem : JValue :=
  .obj [("type", .str "null_check"), ("columns", .arr [.str "id"])]

/-- The end-to-end example request of the specification (§8). -/
def exampleDoc : JValue := baseDoc goodTabla [nullCheckItem] goodOwner

/-- The typed tree the example request validates to. -/
def exampleRequest : DataContractRequest :=
  ⟨⟨⟨"cat.schema.table"⟩, [⟨"DL", "x", "y", "z"⟩],
    [⟨"id", "string", false, true, none⟩], ⟨["id"], none, none⟩,
    [.nullCheck ⟨["id"], none⟩], ⟨"team-x", none, none, none, none⟩, none⟩⟩

-- -------------------------
-- Claim theorems
-- -------------------------

/-- The declared field order of each `ValidationItem` variant in
models.py (the `type` tag first, then the payload fields). -/
def validationKeys : ValidationItem → List String
  | .nullCheck _ => ["type", "columns", "thresholds"]
  | .duplicateCheck _ => ["type", "columns"]
  | .rangeCheck _ => ["type", "column", "min_value", "max_value"]
  | .dateRangeCheck _ => ["type", "column", "start_date", "end_date"]
  | .completeness _ => ["type", "expected_min_records"]
  | .consistencyCross _ =>
      ["type", "df_reference", "foreign_key", "reference_key"]
  | .consistencyInclude _ =>
      ["type", "column", "expected_value", "threshold"]
  | .statsOutlier _ => ["type", "column", "method", "zscore_threshold"]
  | .rowsCountChange _ =>
      ["type", "previous_count", "max_percent_change"]
  | .patternMatch _ =>
      ["type", "column", "pattern", "expected_match_rate"]
  | .monotonicity _ => ["type", "order_by", "direction"]
  | .distValueCount _ =>
      ["type", "column", "min_distinct", "max_distinct"]
  | .colDependency _ =>
      ["type", "column", "condition_column", "condition_value"]
  | .colCorrelation _ =>
      ["type", "column_1", "column_2", "max_correlation"]
  | .freshness _ => ["type", "timestamp_column", "max_age_hours"]

/-- C7: for every validated `DataContractRequest`, every mapping of the
serialized document (the `model_dump` tree handed to
`yaml.safe_dump(sort_keys=False)`, which emits mapping keys in
association order) lists its keys in exactly the declared field order of
the data model — `tabla_uc, source, schema, constraints, validations,
ownership, description` for the body, and declaration order for every
nested record — never alphabetically. -/
theorem C7_field_order (r : DataContractRequest) :
    mappingKeys r.dump = ["data_contract"] ∧
    mappingKeys r.data_contract.dump =
      ["tabla_uc", "source", "schema", "constraints", "validations",
       "ownership", "description"] ∧
    mappingKeys r.data_contract.tabla_uc.dump = ["path"] ∧
    (∀ s ∈ r.data_contract.source, mappingKeys s.dump =
      ["tipo_fuente", "nombre_tecnico_origen", "unity_catalog_fuente",
       "tabla_origen"]) ∧
    (∀ c ∈ r.data_contract.schema, mappingKeys c.dump =
      ["name", "type", "nullable", "is_required", "description"]) ∧
    mappingKeys r.data_contract.constraints.dump =
      ["primary_key", "unique", "required_fields"] ∧
    (∀ v ∈ r.data_contract.validations,
      mappingKeys v.dump = validationKeys v) ∧
    mappingKeys r.data_contract.ownership.dump =
      ["owner_analitico", "owner_funcional", "steward_tecnico",
       "notification_channel", "notification_group"] := by
  refine ⟨rfl, rfl, rfl, ?_, ?_, rfl, ?_, rfl⟩
  · intro s _; rfl
  · intro c _; rfl
  · intro v _; cases v <;> rfl

/-- C7 witness: the field-order property evaluated on the §8 example
request's validated tree. -/
theorem C7_field_order_witness :
    mappingKeys exampleRequest.dump = ["data_contract"] ∧
    mappingKeys (SourceItem.dump ⟨"DL", "x", "y", "z"⟩) =
      ["tipo_fuente", "nombre_tecnico_origen", "unity_catalog_fuente",
       "tabla_origen"] ∧
    mappingKeys (ValidationItem.dump (.nullCheck ⟨["id"], none⟩)) =
      ["type", "columns", "thresholds"] :=
  ⟨(C7_field_order exampleRequest).1,
   (C7_field_order exampleRequest).2.2.2.1 ⟨"DL", "x", "y", "z"⟩
     (List.mem_singleton.mpr rfl),
   (C7_field_order exampleRequest).2.2.2.2.2.2.1 (.nullCheck ⟨["id"], none⟩)
     (List.mem_singleton.mpr rfl)⟩

/-- The §8 example document with `tabla_uc.path` replaced by `s`. -/
def docWithPath (s : String) : JValue :=
  baseDoc (.obj [("path", .str s)]) [nullCheckItem] goodOwner

/-- The typed tree `docWithPath` validates to when the path is kept as
the (already stripped) string `t`. -/
def requestWithPath (t : String) : DataContractRequest :=
  ⟨⟨⟨t⟩, [⟨"DL", "x", "y", "z"⟩], [⟨"id", "string", false, true, none⟩],
    ⟨["id"], none, none⟩, [.nullCheck ⟨["id"], none⟩],
    ⟨"team-x", none, none, none, none⟩, none⟩⟩

/-- C5: a required string field (`StrReq`) is trimmed first — by
pydantic-core's Unicode-whitespace trim — and must then be non-empty: on
a whitespace-only string (ASCII or Unicode whitespace such as U+00A0)
the field fails validation (and a request whose `tabla_uc.path` is
whitespace-only is rejected with 422), while on success the stored value
is the trimmed string (shown both for the field validator and end-to-end
for `tabla_uc.path`). -/
theorem C5_trim_then_nonempty (loc : List PathItem) (s : String) :
    (ustrip s = "" →
      validateStrReq loc (.str s) =
        .error [⟨loc, "String should have at least 1 character"⟩] ∧
      (generate_contract (some (docWithPath s))).status = 422) ∧
    (ustrip s ≠ "" →
      validateStrReq loc (.str s) = .ok (ustrip s) ∧
      validateRequest (docWithPath s) = .ok (requestWithPath (ustrip s))) := by
  constructor
  · intro h
    constructor
    · simp [validateStrReq, h]
    · simp [generate_contract, docWithPath, baseDoc, nullCheckItem, goodOwner,
        validateRequest, reqField, optField, JObj.get?, List.find?,
        validateDataContractBody, validateBodyObj, validateTablaUC,
        validateStrReq, validateStrAny, validateListOf, vlist,
        validateSourceItem, validateSchemaCol, validateConstraints,
        validateOwnership, validateValidationItem, firstOk,
        validateVNullCheck, validateVDuplicateCheck, validateVRangeCheck,
        validateVDateRangeCheck, validateVCompleteness,
        validateVConsistencyCross, validateVConsistencyInclude,
        validateVStatsOutlier, validateVRowsCountChange,
        validateVPatternMatch, validateVMonotonicity, validateVDistValueCount,
        validateVColDependency, validateVColCorrelation, validateVFreshness,
        validateLit, validateLits, validateBool, validateOpt, validatePrim,
        validateFloat, validateInt, vseq, vap, vmap, dictErr, tipoFuenteLits, h,
        show ustrip "x" = "x" from rfl, show ustrip "y" = "y" from rfl,
        show ustrip "z" = "z" from rfl, show ustrip "id" = "id" from rfl,
        show ustrip "string" = "string" from rfl,
        show ustrip "team-x" = "team-x" from rfl]
  · intro h
    constructor
    · simp [validateStrReq, h]
    · simp [docWithPath, baseDoc, nullCheckItem, goodOwner, validateRequest,
        reqField, optField, JObj.get?, List.find?, validateDataContractBody,
        validateBodyObj, validateTablaUC, validateStrReq, validateStrAny,
        validateListOf, vlist, validateSourceItem, validateSchemaCol,
        validateConstraints, validateOwnership, validateValidationItem,
        firstOk, validateVNullCheck, validateVDuplicateCheck,
        validateVRangeCheck, validateVDateRangeCheck, validateVCompleteness,
        validateVConsistencyCross, validateVConsistencyInclude,
        validateVStatsOutlier, validateVRowsCountChange,
        validateVPatternMatch, validateVMonotonicity, validateVDistValueCount,
        validateVColDependency, validateVColCorrelation, validateVFreshness,
        validateLit, validateLits, validateBool, validateOpt, validatePrim,
        validateFloat, validateInt, vseq, vap, vmap, dictErr, tipoFuenteLits,
        h, requestWithPath,
        show ustrip "x" = "x" from rfl, show ustrip "y" = "y" from rfl,
        show ustrip "z" = "z" from rfl, show ustrip "id" = "id" from rfl,
        show ustrip "string" = "string" from rfl,
        show ustrip "team-x" = "team-x" from rfl]

/-- C5 witness: a path of one no-break space (U+00A0, Unicode whitespace
with no ASCII member) fails with 422, and a padded path is stored
trimmed. -/
theorem C5_trim_then_nonempty_witness :
    ((generate_contract (some (docWithPath "\u00A0"))).status = 422) ∧
    ((generate_contract (some (docWithPath " \t "))).status = 422) ∧
    (validateRequest (docWithPath " cat.t ") =
      .ok (requestWithPath "cat.t")) := by
  refine ⟨((C5_trim_then_nonempty [] "\u00A0").1 (by decide)).2,
    ((C5_trim_then_nonempty [] " \t ").1 (by decide)).2, ?_⟩
  have h := ((C5_trim_then_nonempty [] " cat.t ").2 (by decide)).2
  simpa using h

/-- A `consistency_Include` element with valid required fields and the
given extra tail. -/
def vciObj (tail : JObj) : JObj :=
  [("type", .str "consistency_Include"), ("column", .str "c"),
   ("expected_value", .str "v")] ++ tail

/-- A `stats_outlier` element with valid required fields and the given
extra tail. -/
def vsoObj (tail : JObj) : JObj :=
  [("type", .str "stats_outlier"), ("column", .str "c")] ++ tail

/-- C2 counterexample to the claim as stated: an explicit `null` for
`threshold` of `consistency_Include` (resp. `method` of `stats_outlier`)
does not fail validation — the element validates successfully, storing
`None` (the fields are `Optional`, so `null` is a legal value). -/
theorem C2_explicit_null_counterexample :
    validateValidationItem [] (.obj (vciObj [("threshold", .null)])) =
      .ok (.consistencyInclude ⟨"c", .s "v", none⟩) ∧
    validateValidationItem [] (.obj (vsoObj [("method", .null)])) =
      .ok (.statsOutlier ⟨"c", none, some 3⟩) := ⟨rfl, rfl⟩

/-- C2 amended: the declared default (`threshold = 0.0`,
`method = "zscore"`, `zscore_threshold = 3.0`) is substituted only when
the field is absent; a present explicit `null` is accepted and stored as
`None` (no default substitution, no failure), and a present typed value
is stored as given. -/
theorem C2_defaults_only_on_absence (loc : List PathItem) (q : Rat) :
    validateVConsistencyInclude loc (.obj (vciObj [])) =
      .ok ⟨"c", .s "v", some 0⟩ ∧
    validateVConsistencyInclude loc (.obj (vciObj [("threshold", .null)])) =
      .ok ⟨"c", .s "v", none⟩ ∧
    validateVConsistencyInclude loc (.obj (vciObj [("threshold", .num q)])) =
      .ok ⟨"c", .s "v", some q⟩ ∧
    validateVStatsOutlier loc (.obj (vsoObj [])) =
      .ok ⟨"c", some "zscore", some 3⟩ ∧
    validateVStatsOutlier loc
        (.obj (vsoObj [("method", .null), ("zscore_threshold", .null)])) =
      .ok ⟨"c", none, none⟩ ∧
    validateVStatsOutlier loc
        (.obj (vsoObj [("method", .str "iqr"), ("zscore_threshold", .num q)])) =
      .ok ⟨"c", some "iqr", some q⟩ :=
  ⟨rfl, rfl, rfl, rfl, rfl, rfl⟩

/-- Every field name occurring in any of the 15 variant schemas
(including the shared `type` tag). -/
def unionFieldNames : List String :=
  ["type", "columns", "thresholds", "column", "min_value", "max_value",
   "start_date", "end_date", "expected_min_records", "df_reference",
   "foreign_key", "reference_key", "expected_value", "threshold", "method",
   "zscore_threshold", "previous_count", "max_percent_change", "pattern",
   "expected_match_rate", "order_by", "direction", "min_distinct",
   "max_distinct", "condition_column", "condition_value", "column_1",
   "column_2", "max_correlation", "timestamp_column", "max_age_hours"]

lemma get?_cons_of_ne (o : JObj) (k k' : String) (v : JValue) (h : k ≠ k') :
    JObj.get? ((k, v) :: o) k' = JObj.get? o k' := by
  simp [JObj.get?, List.find?, h]

/-- Union validation reads only the keys in `unionFieldNames`. -/
lemma validateValidationItem_congr (loc : List PathItem) (o₁ o₂ : JObj)
    (h : ∀ k ∈ unionFieldNames, JObj.get? o₁ k = JObj.get? o₂ k) :
    validateValidationItem loc (.obj o₁) =
      validateValidationItem loc (.obj o₂) := by
  have hl : ∀ k, k ∈ unionFieldNames → JObj.get? o₁ k = JObj.get? o₂ k := h
  simp only [validateValidationItem, validateVNullCheck,
    validateVDuplicateCheck, validateVRangeCheck, validateVDateRangeCheck,
    validateVCompleteness, validateVConsistencyCross,
    validateVConsistencyInclude, validateVStatsOutlier,
    validateVRowsCountChange, validateVPatternMatch, validateVMonotonicity,
    validateVDistValueCount, validateVColDependency, validateVColCorrelation,
    validateVFreshness, reqField, optField]
  rw [hl "type" (by decide), hl "columns" (by decide),
    hl "thresholds" (by decide), hl "column" (by decide),
    hl "min_value" (by decide), hl "max_value" (by decide),
    hl "start_date" (by decide), hl "end_date" (by decide),
    hl "expected_min_records" (by decide), hl "df_reference" (by decide),
    hl "foreign_key" (by decide), hl "reference_key" (by decide),
    hl "expected_value" (by decide), hl "threshold" (by decide),
    hl "method" (by decide), hl "zscore_threshold" (by decide),
    hl "previous_count" (by decide), hl "max_percent_change" (by decide),
    hl "pattern" (by decide), hl "expected_match_rate" (by decide),
    hl "order_by" (by decide), hl "direction" (by decide),
    hl "min_distinct" (by decide), hl "max_distinct" (by decide),
    hl "condition_column" (by decide), hl "condition_value" (by decide),
    hl "column_1" (by decide), hl "column_2" (by decide),
    hl "max_correlation" (by decide), hl "timestamp_column" (by decide),
    hl "max_age_hours" (by decide)]

/-- C1 amended: unknown fields are ignored, not rejected — adding a field
whose key belongs to no variant schema leaves every element's validation
outcome unchanged (pydantic's default `extra="ignore"`). -/
theorem C1_unknown_fields_ignored (loc : List PathItem) (o : JObj)
    (k : String) (v : JValue) (hk : k ∉ unionFieldNames) :
    validateValidationItem loc (.obj ((k, v) :: o)) =
      validateValidationItem loc (.obj o) := by
  apply validateValidationItem_congr
  intro k' hk'
  refine get?_cons_of_ne _ _ _ _ (fun he => hk ?_)
  rw [he]; exact hk'

/-- C1 witness: the unknown-field invariance evaluated on a concrete
`null_check` element with an extra `bogus` field. -/
theorem C1_unknown_fields_ignored_witness :
    "bogus" ∉ unionFieldNames ∧
    validateValidationItem [] (.obj (("bogus", .num 1) ::
      [("type", .str "null_check"), ("columns", .arr [.str "id"])])) =
      validateValidationItem []
        (.obj [("type", .str "null_check"), ("columns", .arr [.str "id"])]) :=
  ⟨by decide,
   C1_unknown_fields_ignored [] [("type", .str "null_check"),
     ("columns", .arr [.str "id"])] "bogus" (.num 1) (by decide)⟩

/-- The §8 example with a cross-variant extra field on the `null_check`
element: `column` belongs to other variants but not to `null_check`. -/
def c1Doc : JValue :=
  baseDoc goodTabla
    [.obj [("type", .str "null_check"), ("columns", .arr [.str "id"]),
      ("column", .str "id")]] goodOwner

/-- C1 counterexample to the claim as stated: an element carrying the
`null_check` tag plus a field of a different variant (`column`) does not
fail Schema Validator validation — the extra field is ignored and the
whole request succeeds with 200. -/
theorem C1_extra_field_accepted_counterexample :
    (generate_contract (some c1Doc)).status = 200 ∧
    validateValidationItem [] (.obj [("type", .str "null_check"),
      ("columns", .arr [.str "id"]), ("column", .str "id")]) =
      .ok (.nullCheck ⟨["id"], none⟩) := ⟨rfl, rfl⟩

-- -------------------------
-- Error-propagation lemmas for the aggregating applicative
-- -------------------------

lemma vap_error_left (f : Vres (α → β)) (a : Vres α) (e : List PError)
    (h : f = .error e) : ∃ r, vap f a = .error r ∧ ∀ x ∈ e, x ∈ r := by
  subst h
  cases a with
  | ok a => exact ⟨e, rfl, fun x hx => hx⟩
  | error e2 => exact ⟨e ++ e2, rfl, fun x hx => List.mem_append_left _ hx⟩

lemma vap_error_right (f : Vres (α → β)) (a : Vres α) (e : List PError)
    (h : a = .error e) : ∃ r, vap f a = .error r ∧ ∀ x ∈ e, x ∈ r := by
  subst h
  cases f with
  | ok g => exact ⟨e, rfl, fun x hx => hx⟩
  | error e1 => exact ⟨e1 ++ e, rfl, fun x hx => List.mem_append_right _ hx⟩

lemma vseq_error (t : Vres β) (r : Vres α) (e : List PError)
    (h : t = .error e) : ∃ E, vseq t r = .error E ∧ ∀ x ∈ e, x ∈ E := by
  subst h
  exact vap_error_left _ _ _ rfl

/-- A variant whose `type` literal does not match the element's tag
always fails, whatever its other fields contain. -/
lemma variant_tag_isError {io : JObj} {t : String}
    (h4 : JObj.get? io "type" = some (.str t)) (tg : String) (hne : t ≠ tg)
    (loc : List PathItem) (rest : Vres α) :
    ∃ E, vseq (reqField loc io "type" (validateLit tg)) rest = .error E ∧
      (⟨loc ++ [.key "type"], "Input should be " ++ tg⟩ : PError) ∈ E := by
  have hlit : reqField loc io "type" (validateLit tg) =
      .error [⟨loc ++ [.key "type"], "Input should be " ++ tg⟩] := by
    simp [reqField, h4, validateLit, hne]
  obtain ⟨E, hE, hm⟩ := vseq_error _ rest _ hlit
  exact ⟨E, hE, hm _ (List.mem_singleton.mpr rfl)⟩

/-- The 15 recognized `type` tags of the `ValidationItem` union. -/
def validTags : List String :=
  ["null_check", "duplicate_check", "range_check", "date_range_check",
   "completeness", "consistency_cross", "consistency_Include",
   "stats_outlier", "rows_count_change", "pattern_match", "monotonicity",
   "dist_value_count", "col_dependency", "col_correlation", "freshness"]

lemma vErrNullCheck (loc : List PathItem) (io : JObj) {t : String}
    (h4 : JObj.get? io "type" = some (.str t)) (hne : t ≠ "null_check") :
    ∃ E, validateVNullCheck loc (.obj io) = .error E ∧
      (⟨loc ++ [.key "type"], "Input should be " ++ "null_check"⟩ : PError) ∈ E := by
  unfold validateVNullCheck
  exact variant_tag_isError h4 _ hne loc _

lemma vErrDuplicateCheck (loc : List PathItem) (io : JObj) {t : String}
    (h4 : JObj.get? io "type" = some (.str t)) (hne : t ≠ "duplicate_check") :
    ∃ E, validateVDuplicateCheck loc (.obj io) = .error E := by
  unfold validateVDuplicateCheck
  exact ((variant_tag_isError h4 _ hne loc _).imp (fun E h => h.1))

lemma vErrRangeCheck (loc : List PathItem) (io : JObj) {t : String}
    (h4 : JObj.get? io "type" = some (.str t)) (hne : t ≠ "range_check") :
    ∃ E, validateVRangeCheck loc (.obj io) = .error E := by
  unfold validateVRangeCheck
  exact ((variant_tag_isError h4 _ hne loc _).imp (fun E h => h.1))

lemma vErrDateRangeCheck (loc : List PathItem) (io : JObj) {t : String}
    (h4 : JObj.get? io "type" = some (.str t)) (hne : t ≠ "date_range_check") :
    ∃ E, validateVDateRangeCheck loc (.obj io) = .error E := by
  unfold validateVDateRangeCheck
  exact ((variant_tag_isError h4 _ hne loc _).imp (fun E h => h.1))

lemma vErrCompleteness (loc : List PathItem) (io : JObj) {t : String}
    (h4 : JObj.get? io "type" = some (.str t)) (hne : t ≠ "completeness") :
    ∃ E, validateVCompleteness loc (.obj io) = .error E := by
  unfold validateVCompleteness
  exact ((variant_tag_isError h4 _ hne loc _).imp (fun E h => h.1))

lemma vErrConsistencyCross (loc : List PathItem) (io : JObj) {t : String}
    (h4 : JObj.get? io "type" = some (.str t)) (hne : t ≠ "consistency_cross") :
    ∃ E, validateVConsistencyCross loc (.obj io) = .error E := by
  unfold validateVConsistencyCross
  exact ((variant_tag_isError h4 _ hne loc _).imp (fun E h => h.1))

lemma vErrConsistencyInclude (loc : List PathItem) (io : JObj) {t : String}
    (h4 : JObj.get? io "type" = some (.str t))
    (hne : t ≠ "consistency_Include") :
    ∃ E, validateVConsistencyInclude loc (.obj io) = .error E := by
  unfold validateVConsistencyInclude
  exact ((variant_tag_isError h4 _ hne loc _).imp (fun E h => h.1))

lemma vErrStatsOutlier (loc : List PathItem) (io : JObj) {t : String}
    (h4 : JObj.get? io "type" = some (.str t)) (hne : t ≠ "stats_outlier") :
    ∃ E, validateVStatsOutlier loc (.obj io) = .error E := by
  unfold validateVStatsOutlier
  exact ((variant_tag_isError h4 _ hne loc _).imp (fun E h => h.1))

lemma vErrRowsCountChange (loc : List PathItem) (io : JObj) {t : String}
    (h4 : JObj.get? io "type" = some (.str t)) (hne : t ≠ "rows_count_change") :
    ∃ E, validateVRowsCountChange loc (.obj io) = .error E := by
  unfold validateVRowsCountChange
  exact ((variant_tag_isError h4 _ hne loc _).imp (fun E h => h.1))

lemma vErrPatternMatch (loc : List PathItem) (io : JObj) {t : String}
    (h4 : JObj.get? io "type" = some (.str t)) (hne : t ≠ "pattern_match") :
    ∃ E, validateVPatternMatch loc (.obj io) = .error E := by
  unfold validateVPatternMatch
  exact ((variant_tag_isError h4 _ hne loc _).imp (fun E h => h.1))

lemma vErrMonotonicity (loc : List PathItem) (io : JObj) {t : String}
    (h4 : JObj.get? io "type" = some (.str t)) (hne : t ≠ "monotonicity") :
    ∃ E, validateVMonotonicity loc (.obj io) = .error E := by
  unfold validateVMonotonicity
  exact ((variant_tag_isError h4 _ hne loc _).imp (fun E h => h.1))

lemma vErrDistValueCount (loc : List PathItem) (io : JObj) {t : String}
    (h4 : JObj.get? io "type" = some (.str t)) (hne : t ≠ "dist_value_count") :
    ∃ E, validateVDistValueCount loc (.obj io) = .error E := by
  unfold validateVDistValueCount
  exact ((variant_tag_isError h4 _ hne loc _).imp (fun E h => h.1))

lemma vErrColDependency (loc : List PathItem) (io : JObj) {t : String}
    (h4 : JObj.get? io "type" = some (.str t)) (hne : t ≠ "col_dependency") :
    ∃ E, validateVColDependency loc (.obj io) = .error E := by
  unfold validateVColDependency
  exact ((variant_tag_isError h4 _ hne loc _).imp (fun E h => h.1))

lemma vErrColCorrelation (loc : List PathItem) (io : JObj) {t : String}
    (h4 : JObj.get? io "type" = some (.str t)) (hne : t ≠ "col_correlation") :
    ∃ E, validateVColCorrelation loc (.obj io) = .error E := by
  unfold validateVColCorrelation
  exact ((variant_tag_isError h4 _ hne loc _).imp (fun E h => h.1))

lemma vErrFreshness (loc : List PathItem) (io : JObj) {t : String}
    (h4 : JObj.get? io "type" = some (.str t)) (hne : t ≠ "freshness") :
    ∃ E, validateVFreshness loc (.obj io) = .error E := by
  unfold validateVFreshness
  exact ((variant_tag_isError h4 _ hne loc _).imp (fun E h => h.1))

/-- An element whose `type` tag is not one of the 15 recognized tags
fails union validation, and the report contains the first member's
literal-tag error, whose path extends the element's path. -/
lemma item_unknown_tag_error (loc : List PathItem) (io : JObj) (t : String)
    (h4 : JObj.get? io "type" = some (.str t)) (ht : t ∉ validTags) :
    ∃ E, validateValidationItem loc (.obj io) = .error E ∧
      (⟨(loc ++ [.key "VNullCheck"]) ++ [.key "type"],
        "Input should be " ++ "null_check"⟩ : PError) ∈ E := by
  have hne1 : t ≠ "null_check" := fun he => ht (by rw [he]; decide)
  have hne2 : t ≠ "duplicate_check" := fun he => ht (by rw [he]; decide)
  have hne3 : t ≠ "range_check" := fun he => ht (by rw [he]; decide)
  have hne4 : t ≠ "date_range_check" := fun he => ht (by rw [he]; decide)
  have hne5 : t ≠ "completeness" := fun he => ht (by rw [he]; decide)
  have hne6 : t ≠ "consistency_cross" := fun he => ht (by rw [he]; decide)
  have hne7 : t ≠ "consistency_Include" := fun he => ht (by rw [he]; decide)
  have hne8 : t ≠ "stats_outlier" := fun he => ht (by rw [he]; decide)
  have hne9 : t ≠ "rows_count_change" := fun he => ht (by rw [he]; decide)
  have hne10 : t ≠ "pattern_match" := fun he => ht (by rw [he]; decide)
  have hne11 : t ≠ "monotonicity" := fun he => ht (by rw [he]; decide)
  have hne12 : t ≠ "dist_value_count" := fun he => ht (by rw [he]; decide)
  have hne13 : t ≠ "col_dependency" := fun he => ht (by rw [he]; decide)
  have hne14 : t ≠ "col_correlation" := fun he => ht (by rw [he]; decide)
  have hne15 : t ≠ "freshness" := fun he => ht (by rw [he]; decide)
  obtain ⟨E1, hV1, hm1⟩ := vErrNullCheck (loc ++ [.key "VNullCheck"]) io h4 hne1
  obtain ⟨E2, hV2⟩ := vErrDuplicateCheck (loc ++ [.key "VDuplicateCheck"]) io h4 hne2
  obtain ⟨E3, hV3⟩ := vErrRangeCheck (loc ++ [.key "VRangeCheck"]) io h4 hne3
  obtain ⟨E4, hV4⟩ := vErrDateRangeCheck (loc ++ [.key "VDateRangeCheck"]) io h4 hne4
  obtain ⟨E5, hV5⟩ := vErrCompleteness (loc ++ [.key "VCompleteness"]) io h4 hne5
  obtain ⟨E6, hV6⟩ := vErrConsistencyCross (loc ++ [.key "VConsistencyCross"]) io h4 hne6
  obtain ⟨E7, hV7⟩ := vErrConsistencyInclude (loc ++ [.key "VConsistencyInclude"]) io h4 hne7
  obtain ⟨E8, hV8⟩ := vErrStatsOutlier (loc ++ [.key "VStatsOutlier"]) io h4 hne8
  obtain ⟨E9, hV9⟩ := vErrRowsCountChange (loc ++ [.key "VRowsCountChange"]) io h4 hne9
  obtain ⟨E10, hV10⟩ := vErrPatternMatch (loc ++ [.key "VPatternMatch"]) io h4 hne10
  obtain ⟨E11, hV11⟩ := vErrMonotonicity (loc ++ [.key "VMonotonicity"]) io h4 hne11
  obtain ⟨E12, hV12⟩ := vErrDistValueCount (loc ++ [.key "VDistValueCount"]) io h4 hne12
  obtain ⟨E13, hV13⟩ := vErrColDependency (loc ++ [.key "VColDependency"]) io h4 hne13
  obtain ⟨E14, hV14⟩ := vErrColCorrelation (loc ++ [.key "VColCorrelation"]) io h4 hne14
  obtain ⟨E15, hV15⟩ := vErrFreshness (loc ++ [.key "VFreshness"]) io h4 hne15
  simp only [validateValidationItem]
  rw [hV1, hV2, hV3, hV4, hV5, hV6, hV7, hV8, hV9, hV10, hV11, hV12, hV13,
    hV14, hV15]
  simp only [vmap, firstOk]
  refine ⟨_, rfl, ?_⟩
  simp only [List.mem_append]
  have h0 := hm1
  simp only [List.append_assoc, List.singleton_append] at h0
  tauto

/-- An element error at index `i` survives aggregation over the whole
`validations` array. -/
lemma vlist_error_mem {α : Type} {f : Nat → JValue → Vres α} (l : List JValue) :
    ∀ (j i : Nat) (x : JValue), l[i]? = some x →
      ∀ (E : List PError) (pe : PError), f (j + i) x = .error E → pe ∈ E →
        ∃ R, vlist f j l = .error R ∧ pe ∈ R := by
  induction l with
  | nil => intro j i x hx; simp at hx
  | cons y ys ih =>
    intro j i x hx E pe hE hpe
    cases i with
    | zero =>
      simp at hx
      subst hx
      have hE' : f j y = .error E := by simpa using hE
      have h1 : vmap List.cons (f j y) = .error E := by rw [hE']; rfl
      obtain ⟨R, hR, hm⟩ := vap_error_left _ (vlist f (j + 1) ys) E h1
      exact ⟨R, by simpa [vlist] using hR, hm pe hpe⟩
    | succ i' =>
      simp at hx
      obtain ⟨R', hR', hm'⟩ := ih (j + 1) i' x hx E pe
        (by rw [show j + 1 + i' = j + (i' + 1) by omega]; exact hE) hpe
      obtain ⟨R, hR, hm⟩ := vap_error_right (vmap List.cons (f j y)) _ R' hR'
      exact ⟨R, by simpa [vlist] using hR, hm _ hm'⟩

lemma bodyObj_validations_error (loc : List PathItem) (o : JObj)
    (E : List PError) (pe : PError)
    (h : reqField loc o "validations"
      (validateListOf validateValidationItem) = .error E) (hpe : pe ∈ E) :
    ∃ R, validateBodyObj loc o = .error R ∧ pe ∈ R := by
  unfold validateBodyObj
  rw [h]
  rcases reqField loc o "tabla_uc" validateTablaUC with e1 | v1 <;>
  rcases reqField loc o "source" (validateListOf validateSourceItem) with e2 | v2 <;>
  rcases reqField loc o "schema" (validateListOf validateSchemaCol) with e3 | v3 <;>
  rcases reqField loc o "constraints" validateConstraints with e4 | v4 <;>
  rcases reqField loc o "ownership" validateOwnership with e6 | v6 <;>
  rcases optField loc o "description" none (validateOpt validateStrAny) with e7 | v7 <;>
  exact ⟨_, rfl, by simp [vmap, vap, List.mem_append, hpe]⟩

lemma validateRequest_body_error (po ob : JObj) (R : List PError)
    (h1 : JObj.get? po "data_contract" = some (.obj ob))
    (hb : validateBodyObj [.key "data_contract"] ob = .error R) :
    validateRequest (.obj po) = .error R := by
  simp only [validateRequest, reqField, h1, validateDataContractBody,
    List.nil_append]
  rw [hb]
  rfl

lemma generate_contract_422 (p : JValue) (R : List PError)
    (h : validateRequest p = .error R) :
    generate_contract (some p) = ⟨422, R, none⟩ := by
  simp [generate_contract, h]

/-- C4: a `validations` element whose `type` tag is not one of the 15
recognized tags makes the whole request fail with 422 (never silently
ignored), and the failure report contains an error whose path names that
element (`data_contract.validations[i]`, through the union member). -/
theorem C4_unknown_tag_rejected (po ob : JObj) (l : List JValue) (io : JObj)
    (i : Nat) (t : String)
    (h1 : JObj.get? po "data_contract" = some (.obj ob))
    (h2 : JObj.get? ob "validations" = some (.arr l))
    (h3 : l[i]? = some (.obj io))
    (h4 : JObj.get? io "type" = some (.str t))
    (ht : t ∉ validTags) :
    (generate_contract (some (.obj po))).status = 422 ∧
    ∃ e ∈ (generate_contract (some (.obj po))).errors,
      e.loc = [.key "data_contract", .key "validations", .idx i,
               .key "VNullCheck", .key "type"] ∧
      e.msg = "Input should be " ++ "null_check" := by
  obtain ⟨E, hitem, hmemE⟩ := item_unknown_tag_error
    (([PathItem.key "data_contract"] ++ [PathItem.key "validations"]) ++
      [PathItem.idx (0 + i)]) io t h4 ht
  obtain ⟨R5, hR5, hmR5⟩ := vlist_error_mem
    (f := fun i' v => validateValidationItem
      (([PathItem.key "data_contract"] ++ [PathItem.key "validations"]) ++
        [PathItem.idx i']) v)
    l 0 i (.obj io) h3 E _ hitem hmemE
  have hf5 : reqField [PathItem.key "data_contract"] ob "validations"
      (validateListOf validateValidationItem) = .error R5 := by
    simp only [reqField, h2, validateListOf]
    exact hR5
  obtain ⟨R, hbody, hmR⟩ :=
    bodyObj_validations_error [PathItem.key "data_contract"] ob R5 _ hf5 hmR5
  have hreq := validateRequest_body_error po ob R h1 hbody
  have hgc := generate_contract_422 (.obj po) R hreq
  rw [hgc]
  refine ⟨rfl, ⟨_, hmR, ?_, rfl⟩⟩
  simp [List.append_assoc]

/-- A request whose `validations` list contains, at index 0, an element
with the unrecognized tag `bogus_check` (the §8 failure example). -/
def c4Doc : JValue :=
  baseDoc goodTabla [.obj [("type", .str "bogus_check")]] goodOwner

/-- C4 witness: the `bogus_check` request is rejected with 422 and the
report names the element's field path. -/
theorem C4_unknown_tag_rejected_witness :
    (generate_contract (some c4Doc)).status = 422 ∧
    ∃ e ∈ (generate_contract (some c4Doc)).errors,
      e.loc = [.key "data_contract", .key "validations", .idx 0,
               .key "VNullCheck", .key "type"] ∧
      e.msg = "Input should be " ++ "null_check" :=
  C4_unknown_tag_rejected _ _ _ _ 0 "bogus_check" rfl rfl rfl rfl (by decide)

/-- Two independent section errors both survive aggregation over the
body's seven fields, whatever the other five fields yield. -/
lemma bodyObj_two_fields_error (loc : List PathItem) (o : JObj)
    (E1 E2 : List PError)
    (h1 : reqField loc o "tabla_uc" validateTablaUC = .error E1)
    (h6 : reqField loc o "ownership" validateOwnership = .error E2) :
    ∃ R, validateBodyObj loc o = .error R ∧
      (∀ x ∈ E1, x ∈ R) ∧ (∀ x ∈ E2, x ∈ R) := by
  unfold validateBodyObj
  rw [h1, h6]
  rcases reqField loc o "source" (validateListOf validateSourceItem) with e2 | v2 <;>
  rcases reqField loc o "schema" (validateListOf validateSchemaCol) with e3 | v3 <;>
  rcases reqField loc o "constraints" validateConstraints with e4 | v4 <;>
  rcases reqField loc o "validations" (validateListOf validateValidationItem) with e5 | v5 <;>
  rcases optField loc o "description" none (validateOpt validateStrAny) with e7 | v7 <;>
  exact ⟨_, rfl, fun x hx => by simp [vmap, vap, List.mem_append, hx],
    fun x hx => by simp [vmap, vap, List.mem_append, hx]⟩

/-- C6: the failure report aggregates across the whole tree — when both
the `tabla_uc` and the `ownership` sections are violated, the 422 report
contains every error of both sections, not only the first one
encountered. -/
theorem C6_aggregated_report (po ob : JObj) (E1 E2 : List PError)
    (h1 : JObj.get? po "data_contract" = some (.obj ob))
    (h2 : reqField [.key "data_contract"] ob "tabla_uc" validateTablaUC =
      .error E1)
    (h3 : reqField [.key "data_contract"] ob "ownership" validateOwnership =
      .error E2) :
    (generate_contract (some (.obj po))).status = 422 ∧
    (∀ x ∈ E1, x ∈ (generate_contract (some (.obj po))).errors) ∧
    (∀ x ∈ E2, x ∈ (generate_contract (some (.obj po))).errors) := by
  obtain ⟨R, hbody, hm1, hm2⟩ :=
    bodyObj_two_fields_error [PathItem.key "data_contract"] ob E1 E2 h2 h3
  have hreq := validateRequest_body_error po ob R h1 hbody
  have hgc := generate_contract_422 (.obj po) R hreq
  rw [hgc]
  exact ⟨rfl, hm1, hm2⟩

/-- A request with two independent violations: a whitespace-only
`tabla_uc.path` and an `ownership` section missing `owner_analitico`. -/
def c6Doc : JValue :=
  baseDoc (.obj [("path", .str " ")]) [nullCheckItem] (.obj [])

/-- C6 witness: both violations appear in the 422 report. -/
theorem C6_aggregated_report_witness :
    (generate_contract (some c6Doc)).status = 422 ∧
    (⟨[.key "data_contract", .key "tabla_uc", .key "path"],
      "String should have at least 1 character"⟩ : PError) ∈
      (generate_contract (some c6Doc)).errors ∧
    (⟨[.key "data_contract", .key "ownership", .key "owner_analitico"],
      "Field required"⟩ : PError) ∈
      (generate_contract (some c6Doc)).errors := by
  have h := C6_aggregated_report
    [("data_contract", .obj [
      ("tabla_uc", .obj [("path", .str " ")]),
      ("source", .arr [.obj [
        ("tipo_fuente", .str "DL"),
        ("nombre_tecnico_origen", .str "x"),
        ("unity_catalog_fuente", .str "y"),
        ("tabla_origen", .str "z")]]),
      ("schema", .arr [.obj [
        ("name", .str "id"),
        ("type", .str "string"),
        ("nullable", .bool false),
        ("is_required", .bool true)]]),
      ("constraints", .obj [("primary_key", .arr [.str "id"])]),
      ("validations", .arr [nullCheckItem]),
      ("ownership", .obj [])])]
    [("tabla_uc", .obj [("path", .str " ")]),
      ("source", .arr [.obj [
        ("tipo_fuente", .str "DL"),
        ("nombre_tecnico_origen", .str "x"),
        ("unity_catalog_fuente", .str "y"),
        ("tabla_origen", .str "z")]]),
      ("schema", .arr [.obj [
        ("name", .str "id"),
        ("type", .str "string"),
        ("nullable", .bool false),
        ("is_required", .bool true)]]),
      ("constraints", .obj [("primary_key", .arr [.str "id"])]),
      ("validations", .arr [nullCheckItem]),
      ("ownership", .obj [])]
    [⟨[.key "data_contract", .key "tabla_uc", .key "path"],
      "String should have at least 1 character"⟩]
    [⟨[.key "data_contract", .key "ownership", .key "owner_analitico"],
      "Field required"⟩] rfl rfl rfl
  exact ⟨h.1, h.2.1 _ (List.mem_singleton.mpr rfl),
    h.2.2 _ (List.mem_singleton.mpr rfl)⟩

/-- C10: the service-credential check precedes all request validation —
with `GEMINI_API_KEY` unset (or empty, which Python treats as falsy), a
POST to `suggest_metadata` returns 500 before the body is even parsed,
whatever the request contains (invalid JSON, unsupported `lang` and
missing `csv_text` included). -/
theorem C10_credential_check_first (parsed : Option JValue)
    (gen : GenCall → Except String JValue) :
    suggest_metadata none parsed gen = some ⟨500, none, none⟩ ∧
    suggest_metadata (some "") parsed gen = some ⟨500, none, none⟩ :=
  ⟨rfl, rfl⟩

/-- C8: a POST whose `lang` value does not normalize (lowercase, strip)
into the allow-list of `"en"` and `"es"` is answered 400 with no downstream
call; an absent `lang` instead defaults to the base language `"en"` and
the request proceeds to the downstream call. (Credential set and body a
JSON object, as the handler requires to reach this check.) -/
theorem C8_unsupported_lang_rejected (k : String) (hk : k ≠ "") (o : JObj)
    (gen : GenCall → Except String JValue) :
    (∀ s, JObj.get? o "lang" = some (.str s) → s ≠ "" →
      pstrip (pyLower s) ≠ "en" → pstrip (pyLower s) ≠ "es" →
      suggest_metadata (some k) (some (.obj o)) gen = some ⟨400, none, none⟩) ∧
    (JObj.get? o "lang" = none →
      ∀ csv, JObj.get? o "csv_text" = some (.str csv) → pstrip csv ≠ "" →
        ∃ out, suggest_metadata (some k) (some (.obj o)) gen = some out ∧
          ∃ c, out.call = some c ∧ c.lang = "en") := by
  constructor
  · intro s hs hs0 h1 h2
    simp [suggest_metadata, hk, bodyDict, hs, resolveLang, hs0, h1, h2]
  · intro hnone csv hcsv hcsvne
    simp only [suggest_metadata, bodyDict, hnone, resolveLang, hcsv]
    rw [if_neg hk]
    simp only [Option.getD_some]
    rw [if_neg (by simp)]
    rw [if_neg (by simp [hcsvne])]
    simp only [if_true]
    rcases hg : gen ⟨String.take csv (64 * 1024), "en", "English",
        (JObj.get? o "table_name").getD (.str "unknown_table")⟩ with e | d <;>
      exact ⟨_, rfl, _, rfl, rfl⟩

/-- A downstream oracle that always succeeds with a `null` JSON reply. -/
def genNull : GenCall → Except String JValue := fun _ => .ok .null

/-- C8 witness: `lang="xx"` is answered 400 with no call; absent `lang`
defaults to `"en"` and the call is made. -/
theorem C8_unsupported_lang_rejected_witness :
    suggest_metadata (some "key")
      (some (.obj [("csv_text", .str "a,b"), ("lang", .str "xx")])) genNull =
      some ⟨400, none, none⟩ ∧
    (∃ out, suggest_metadata (some "key")
        (some (.obj [("csv_text", .str "a,b")])) genNull = some out ∧
        ∃ c, out.call = some c ∧ c.lang = "en") :=
  ⟨(C8_unsupported_lang_rejected "key" (by decide)
      [("csv_text", .str "a,b"), ("lang", .str "xx")] genNull).1
      "xx" rfl (by decide) (by decide) (by decide),
   (C8_unsupported_lang_rejected "key" (by decide)
      [("csv_text", .str "a,b")] genNull).2 rfl "a,b" rfl (by decide)⟩

/-- C9: the `lang` selector is normalized (lowercased, stripped) before
the allow-list check, so `"EN"` and `" es "` are accepted as `"en"` and
`"es"`; an explicit `null` is replaced by the default `"en"` rather than
rejected (Python `or` on a falsy value) — in each case the downstream
call is made with the normalized selector, never a 400. -/
theorem C9_lang_normalized (k csv : String) (hk : k ≠ "")
    (hcsv : pstrip csv ≠ "") (gen : GenCall → Except String JValue) :
    (∃ out, suggest_metadata (some k)
        (some (.obj [("csv_text", .str csv), ("lang", .str "EN")])) gen =
        some out ∧ out.status ≠ 400 ∧
        ∃ c, out.call = some c ∧ c.lang = "en") ∧
    (∃ out, suggest_metadata (some k)
        (some (.obj [("csv_text", .str csv), ("lang", .str " es ")])) gen =
        some out ∧ out.status ≠ 400 ∧
        ∃ c, out.call = some c ∧ c.lang = "es") ∧
    (∃ out, suggest_metadata (some k)
        (some (.obj [("csv_text", .str csv), ("lang", .null)])) gen =
        some out ∧ out.status ≠ 400 ∧
        ∃ c, out.call = some c ∧ c.lang = "en") := by
  refine ⟨?_, ?_, ?_⟩
  · simp [suggest_metadata, hk, bodyDict, JObj.get?, List.find?, resolveLang,
      hcsv, show pstrip (pyLower "EN") = "en" from rfl]
    rcases hg : gen ⟨csv.take 65536, "en", "English", .str "unknown_table"⟩
        with e | d <;> exact ⟨_, rfl, by simp, _, rfl, rfl⟩
  · simp [suggest_metadata, hk, bodyDict, JObj.get?, List.find?, resolveLang,
      hcsv, show pstrip (pyLower " es ") = "es" from rfl]
    rcases hg : gen ⟨csv.take 65536, "es", "Spanish", .str "unknown_table"⟩
        with e | d <;> exact ⟨_, rfl, by simp, _, rfl, rfl⟩
  · simp [suggest_metadata, hk, bodyDict, JObj.get?, List.find?, resolveLang,
      hcsv]
    rcases hg : gen ⟨csv.take 65536, "en", "English", .str "unknown_table"⟩
        with e | d <;> exact ⟨_, rfl, by simp, _, rfl, rfl⟩

/-- C9 witness: the three normalization scenarios at a concrete request. -/
theorem C9_lang_normalized_witness :
    (∃ out, suggest_metadata (some "key")
        (some (.obj [("csv_text", .str "a,b"), ("lang", .str "EN")])) genNull =
        some out ∧ out.status ≠ 400 ∧
        ∃ c, out.call = some c ∧ c.lang = "en") ∧
    (∃ out, suggest_metadata (some "key")
        (some (.obj [("csv_text", .str "a,b"), ("lang", .null)])) genNull =
        some out ∧ out.status ≠ 400 ∧
        ∃ c, out.call = some c ∧ c.lang = "en") :=
  ⟨(C9_lang_normalized "key" "a,b" (by decide) (by decide) genNull).1,
   (C9_lang_normalized "key" "a,b" (by decide) (by decide) genNull).2.2⟩

/-- A well-formed `suggest_metadata` request (credential set, object body,
non-blank string `csv_text`, no `lang`) reaches the downstream call with
the sliced sample and succeeds when the call succeeds. -/
lemma suggest_success_run (k csv : String) (hk : k ≠ "")
    (hcsv : pstrip csv ≠ "") (gen : GenCall → Except String JValue)
    (data : JValue)
    (hgen : gen ⟨csv.take (64 * 1024), "en", "English",
      .str "unknown_table"⟩ = .ok data) :
    suggest_metadata (some k) (some (.obj [("csv_text", .str csv)])) gen =
      some ⟨200, some ⟨csv.take (64 * 1024), "en", "English",
        .str "unknown_table"⟩, some (tagLang "en" data)⟩ := by
  simp [suggest_metadata, hk, bodyDict, JObj.get?, List.find?, resolveLang,
    hcsv]
  rw [show (64 : Nat) * 1024 = 65536 from rfl] at hgen
  rw [hgen]

lemma dropWhile_replicate_not (n : Nat) (c : Char) (h : isPyWs c = false) :
    (List.replicate n c).dropWhile isPyWs = List.replicate n c := by
  cases n with
  | zero => rfl
  | succ m => simp [List.replicate_succ, List.dropWhile_cons, h]

lemma stripList_replicate (n : Nat) (c : Char) (h : isPyWs c = false) :
    stripList (List.replicate n c) = List.replicate n c := by
  unfold stripList
  rw [dropWhile_replicate_not n c h, List.reverse_replicate,
    dropWhile_replicate_not n c h, List.reverse_replicate]

lemma byteLen_replicate (n : Nat) (c : Char) :
    byteLen ⟨List.replicate n c⟩ = n * utf8Len c := by
  simp [byteLen, List.map_replicate, List.sum_replicate, smul_eq_mul]

/-- C3 amended: the sample is truncated to a fixed budget of 64·1024
characters (Python slices code points, not bytes) before being sent
downstream: for `csv_text` longer than that many characters the dispatched
sample is exactly its first 64·1024 characters, truncation is silent (no
error; the request returns 200 when the downstream call succeeds). The
budget equals 64 KiB bytes only for single-byte text. -/
theorem C3_truncated_to_chars (k csv : String) (hk : k ≠ "")
    (hcsv : pstrip csv ≠ "") (hlen : 64 * 1024 < csv.length)
    (gen : GenCall → Except String JValue) (data : JValue)
    (hgen : gen ⟨csv.take (64 * 1024), "en", "English",
      .str "unknown_table"⟩ = .ok data) :
    suggest_metadata (some k) (some (.obj [("csv_text", .str csv)])) gen =
      some ⟨200, some ⟨csv.take (64 * 1024), "en", "English",
        .str "unknown_table"⟩, some (tagLang "en" data)⟩ ∧
    (csv.take (64 * 1024)).length = 64 * 1024 := by
  refine ⟨suggest_success_run k csv hk hcsv gen data hgen, ?_⟩
  rw [String.take_eq]
  have hd : csv.data.length = csv.length := rfl
  simp only [String.length, List.length_take]
  omega

def asciiCsv : String := ⟨List.replicate 65537 'a'⟩

lemma pstrip_asciiCsv : pstrip asciiCsv = asciiCsv := by
  show (⟨stripList (List.replicate 65537 'a')⟩ : String) = _
  rw [stripList_replicate _ _ (by decide)]
  rfl

lemma asciiCsv_ne_empty : pstrip asciiCsv ≠ "" := by
  rw [pstrip_asciiCsv]
  intro heq
  have hl : asciiCsv.data.length = 0 := by rw [congrArg String.data heq]; rfl
  rw [show asciiCsv.data = List.replicate 65537 'a' from rfl,
    List.length_replicate] at hl
  exact absurd hl (by decide)

lemma asciiCsv_length : asciiCsv.length = 65537 := by
  show (List.replicate 65537 'a').length = 65537
  rw [List.length_replicate]

theorem C3_truncated_to_chars_witness :
    suggest_metadata (some "key")
      (some (.obj [("csv_text", .str asciiCsv)])) genNull =
      some ⟨200, some ⟨asciiCsv.take (64 * 1024), "en", "English",
        .str "unknown_table"⟩, some .null⟩ ∧
    (asciiCsv.take (64 * 1024)).length = 64 * 1024 :=
  C3_truncated_to_chars "key" asciiCsv (by decide) asciiCsv_ne_empty
    (by rw [asciiCsv_length]; decide) genNull .null rfl

def wideChar : Char := Char.ofNat 0x1D11E

def wideCsv : String := ⟨List.replicate 16385 wideChar⟩

lemma byteLen_wideCsv : byteLen wideCsv = 65540 := by
  show byteLen ⟨List.replicate 16385 wideChar⟩ = 65540
  rw [byteLen_replicate]
  decide

lemma pstrip_wideCsv : pstrip wideCsv = wideCsv := by
  show (⟨stripList (List.replicate 16385 wideChar)⟩ : String) = _
  rw [stripList_replicate _ _ (by decide)]
  rfl

lemma wideCsv_ne_empty : pstrip wideCsv ≠ "" := by
  rw [pstrip_wideCsv]
  intro heq
  have hl : wideCsv.data.length = 0 := by rw [congrArg String.data heq]; rfl
  rw [show wideCsv.data = List.replicate 16385 wideChar from rfl,
    List.length_replicate] at hl
  exact absurd hl (by decide)

lemma wideCsv_take : wideCsv.take (64 * 1024) = wideCsv := by
  rw [String.take_eq]
  show (⟨(List.replicate 16385 wideChar).take 65536⟩ : String) = _
  rw [List.take_of_length_le (by rw [List.length_replicate]; omega)]
  rfl

/-- C3 counterexample to the claim as stated: a `csv_text` of 16385
four-byte code points is 65540 bytes long — beyond the 64 KiB byte budget
— yet the handler sends it downstream untruncated (its character count,
16385, is below the 64·1024 slice bound), so the dispatched sample still
exceeds 64 KiB bytes: the truncation is not a byte-budget truncation. -/
theorem C3_byte_budget_counterexample :
    64 * 1024 < byteLen wideCsv ∧
    ∃ out, suggest_metadata (some "key")
        (some (.obj [("csv_text", .str wideCsv)])) genNull = some out ∧
      out.status = 200 ∧
      ∃ c, out.call = some c ∧ c.csv_sample = wideCsv ∧
        64 * 1024 < byteLen c.csv_sample := by
  have hrun := suggest_success_run "key" wideCsv (by decide) wideCsv_ne_empty
    genNull .null rfl
  rw [wideCsv_take] at hrun
  refine ⟨by rw [byteLen_wideCsv]; decide, _, hrun, rfl, _, rfl, rfl, ?_⟩
  rw [byteLen_wideCsv]; decide
